import Mathlib

/-!
Shallow embedding of the PainAR injury-assessment tracker
(src/backend/app/prompts/injury_assessment.py and
src/backend/app/prompts/assessment_manager.py).

Python strings are modelled by Lean strings; the Python operations used by
the tracker are reproduced below: str.lower via Char.toLower, the substring
test of the `in` operator via infix search on character lists, str.split()
via whitespace tokenisation dropping empty tokens, and the digit-run scan of
re.findall on the pattern of word-bounded digit groups.

Wall-clock fields (start_time, timestamps, duration_minutes) are external
inputs never read by any computation the claims are about; they are omitted
from the embedded records.
-/

set_option autoImplicit false

namespace PainAR

/-- Python str.lower, mapping the character lowering over the characters. -/
def pyLower (s : String) : String := String.mk (s.toList.map Char.toLower)

/-- Prefix test on character lists. -/
def listIsPrefix : List Char → List Char → Bool
  | [], _ => true
  | _ :: _, [] => false
  | c :: cs, h :: hs => c == h && listIsPrefix cs hs

/-- Infix test on character lists: the needle occurs contiguously in the hay. -/
def listIsInfix (n : List Char) : List Char → Bool
  | [] => listIsPrefix n []
  | c :: hs => listIsPrefix n (c :: hs) || listIsInfix n hs

/-- Python substring containment: needle in hay. -/
def pyContains (hay needle : String) : Bool :=
  listIsInfix needle.toList hay.toList

/-- Tokeniser of Python str.split() with no arguments: the accumulator holds
the current token in reverse; whitespace closes a token, and empty tokens
are never produced. -/
def splitWsAux : List Char → List Char → List String
  | [], cur => if cur.isEmpty then [] else [String.mk cur.reverse]
  | c :: cs, cur =>
    if c.isWhitespace then
      (if cur.isEmpty then [] else [String.mk cur.reverse]) ++ splitWsAux cs []
    else
      splitWsAux cs (c :: cur)

/-- Python str.split() with no arguments: whitespace runs, no empty tokens. -/
def pySplitWs (s : String) : List String := splitWsAux s.toList []

/-- Regex word character for the word-boundary semantics of the digit scan. -/
def isWordChar (c : Char) : Bool := c.isAlphanum || c == '_'

/-- Numeric value of a digit string, as Python int of a digit group. -/
def digitsToNat (ds : List Char) : Nat :=
  ds.foldl (fun n c => 10 * n + (c.toNat - 48)) 0

/-- Scan for word-bounded digit runs. The first argument is the candidate
run collected so far in reverse, present only when its left boundary was
valid; the second records whether the previous character was a word
character. -/
def scanNumbers : Option (List Char) → Bool → List Char → List Nat
  | some ds, _, [] => [digitsToNat ds.reverse]
  | none, _, [] => []
  | some ds, _, c :: cs =>
      if c.isDigit then
        scanNumbers (some (c :: ds)) true cs
      else if isWordChar c then
        scanNumbers none true cs
      else
        digitsToNat ds.reverse :: scanNumbers none false cs
  | none, prevWord, c :: cs =>
      if c.isDigit then
        if prevWord then scanNumbers none true cs
        else scanNumbers (some [c]) true cs
      else
        scanNumbers none (isWordChar c) cs

/-- Python re.findall of word-bounded digit groups over a string. -/
def pyFindNumbers (s : String) : List Nat := scanNumbers none false s.toList

/-- The AssessmentPhase enumeration of injury_assessment.py. -/
inductive AssessmentPhase where
  | initial_screening
  | pain_characteristics
  | functional_impact
  | medical_history
  | lifestyle_factors
  | follow_up
deriving DecidableEq

/-- The string value of each enum member. -/
def AssessmentPhase.value : AssessmentPhase → String
  | .initial_screening => "initial_screening"
  | .pain_characteristics => "pain_characteristics"
  | .functional_impact => "functional_impact"
  | .medical_history => "medical_history"
  | .lifestyle_factors => "lifestyle_factors"
  | .follow_up => "follow_up"

/-- The AssessmentQuestion dataclass. -/
structure AssessmentQuestion where
  id : String
  phase : AssessmentPhase
  question : String
  follow_ups : List String
  data_points : List String
  priority : Nat
deriving DecidableEq

/-- The question bank built by InjuryAssessmentPrompts, an insertion-ordered
dictionary from phase value strings to the phase question lists. -/
def questions : List (String × List AssessmentQuestion) :=
  [("initial_screening",
    [{ id := "pain_chief_complaint",
       phase := .initial_screening,
       question := "Can you tell me about your main concern today? What\x27s bothering you the most?",
       follow_ups :=
         ["When did this problem first start?",
          "Has it been getting better, worse, or staying the same?",
          "What do you think might have caused this?"],
       data_points := ["chief_complaint", "onset_timeline", "progression", "suspected_cause"],
       priority := 1 },
     { id := "pain_location",
       phase := .initial_screening,
       question := "Can you show me or describe exactly where you\x27re experiencing pain or discomfort?",
       follow_ups :=
         ["Does the pain stay in one place or does it move around?",
          "Does it spread to any other areas of your body?",
          "Is it deeper inside or more on the surface?"],
       data_points := ["primary_location", "radiation_pattern", "pain_depth", "affected_areas"],
       priority := 1 },
     { id := "pain_severity",
       phase := .initial_screening,
       question := "On a scale of 0 to 10, where 0 is no pain and 10 is the worst pain imaginable, how would you rate your pain right now?",
       follow_ups :=
         ["What\x27s the worst it\x27s been in the past week?",
          "What\x27s the best it\x27s been?",
          "How would you rate your average pain level?"],
       data_points := ["current_pain_level", "worst_pain_level", "best_pain_level", "average_pain_level"],
       priority := 1 }]),
   ("pain_characteristics",
    [{ id := "pain_quality",
       phase := .pain_characteristics,
       question := "How would you describe the pain? For example: sharp, dull, burning, aching, throbbing, stabbing, cramping, or something else?",
       follow_ups :=
         ["Does the type of pain change throughout the day?",
          "Are there different types of pain in different areas?",
          "Does it feel like any pain you\x27ve had before?"],
       data_points := ["pain_descriptors", "pain_variability", "pain_patterns", "pain_familiarity"],
       priority := 2 },
     { id := "pain_timing",
       phase := .pain_characteristics,
       question := "When do you notice the pain most? Is it constant or does it come and go?",
       follow_ups :=
         ["What time of day is it typically worst?",
          "How long do pain episodes last?",
          "Do you wake up with pain or does it develop during the day?"],
       data_points := ["pain_frequency", "circadian_pattern", "episode_duration", "onset_timing"],
       priority := 2 },
     { id := "triggers_relievers",
       phase := .pain_characteristics,
       question := "What makes your pain better? What makes it worse?",
       follow_ups :=
         ["Does movement help or hurt?",
          "How about rest, heat, cold, or specific positions?",
          "Have you tried any medications or treatments?"],
       data_points := ["aggravating_factors", "relieving_factors", "positional_effects", "treatment_responses"],
       priority := 2 }]),
   ("functional_impact",
    [{ id := "daily_activities",
       phase := .functional_impact,
       question := "How is this pain affecting your daily activities? What can\x27t you do now that you could do before?",
       follow_ups :=
         ["How about work or school activities?",
          "What about household tasks?",
          "Any changes in your sleep?"],
       data_points := ["functional_limitations", "work_impact", "home_activities", "sleep_disturbance"],
       priority := 2 },
     { id := "mobility_assessment",
       phase := .functional_impact,
       question := "Tell me about your mobility. Any difficulty walking, climbing stairs, or moving around?",
       follow_ups :=
         ["Do you use any assistive devices?",
          "How far can you walk comfortably?",
          "Any balance or coordination issues?"],
       data_points := ["mobility_status", "walking_tolerance", "assistive_devices", "balance_issues"],
       priority := 2 },
     { id := "psychological_impact",
       phase := .functional_impact,
       question := "How is this condition affecting you emotionally? Are you feeling frustrated, worried, or down about it?",
       follow_ups :=
         ["Has it changed your mood or energy levels?",
          "Are you worried about the future?",
          "How is it affecting your relationships?"],
       data_points := ["emotional_impact", "mood_changes", "anxiety_levels", "social_impact"],
       priority := 3 }]),
   ("medical_history",
    [{ id := "injury_mechanism",
       phase := .medical_history,
       question := "Can you walk me through exactly how this injury happened? What were you doing when it started?",
       follow_ups :=
         ["Was there a specific moment when you felt something wrong?",
          "Did you hear or feel anything unusual (like a pop, crack, or tear)?",
          "Were you able to continue what you were doing?"],
       data_points := ["mechanism_of_injury", "immediate_symptoms", "audible_signs", "immediate_function"],
       priority := 1 },
     { id := "previous_injuries",
       phase := .medical_history,
       question := "Have you had any previous injuries to this area or similar problems anywhere else?",
       follow_ups :=
         ["How were previous injuries treated?",
          "Did they heal completely?",
          "Any ongoing issues from past injuries?"],
       data_points := ["injury_history", "previous_treatments", "residual_effects", "recurrence_pattern"],
       priority := 3 },
     { id := "medical_conditions",
       phase := .medical_history,
       question := "Do you have any medical conditions or take any medications I should know about?",
       follow_ups :=
         ["Any conditions affecting bones, joints, or muscles?",
          "Any medications for pain or inflammation?",
          "Any allergies to medications?"],
       data_points := ["medical_conditions", "current_medications", "allergies", "relevant_conditions"],
       priority := 3 }]),
   ("lifestyle_factors",
    [{ id := "activity_level",
       phase := .lifestyle_factors,
       question := "Tell me about your typical activity level. Do you exercise regularly, play sports, or have a physically demanding job?",
       follow_ups :=
         ["What types of activities do you enjoy?",
          "How has your activity level changed since this started?",
          "What are your fitness goals?"],
       data_points := ["baseline_activity", "exercise_habits", "sports_participation", "fitness_goals"],
       priority := 4 },
     { id := "ergonomics_lifestyle",
       phase := .lifestyle_factors,
       question := "Tell me about your work setup and daily postures. Do you sit at a desk, do physical labor, or something else?",
       follow_ups :=
         ["How many hours do you spend in the same position?",
          "What\x27s your typical sleep position and mattress like?",
          "Any repetitive motions in your daily routine?"],
       data_points := ["work_ergonomics", "postural_habits", "sleep_setup", "repetitive_activities"],
       priority := 4 },
     { id := "stress_factors",
       phase := .lifestyle_factors,
       question := "Are there any stressors in your life that might be affecting your healing or pain levels?",
       follow_ups :=
         ["How do you typically handle stress?",
          "Have you noticed stress affecting your pain?",
          "What support systems do you have?"],
       data_points := ["stress_levels", "coping_mechanisms", "stress_pain_relationship", "support_systems"],
       priority := 4 }]),
   ("follow_up",
    [{ id := "treatment_goals",
       phase := .follow_up,
       question := "What are your main goals for treatment? What would you most like to be able to do again?",
       follow_ups :=
         ["What\x27s most important to you in your recovery?",
          "Are there specific activities you\x27re hoping to return to?",
          "What would successful treatment look like to you?"],
       data_points := ["treatment_goals", "functional_priorities", "recovery_expectations", "success_criteria"],
       priority := 2 },
     { id := "red_flag_screening",
       phase := .follow_up,
       question := "Have you experienced any numbness, tingling, weakness, or loss of function? Any fever, nausea, or other symptoms?",
       follow_ups :=
         ["Any changes in bowel or bladder function?",
          "Any severe headaches or dizziness?",
          "Any symptoms that seem unrelated but started around the same time?"],
       data_points := ["neurological_symptoms", "systemic_symptoms", "red_flag_indicators", "associated_symptoms"],
       priority := 1 },
     { id := "additional_concerns",
       phase := .follow_up,
       question := "Is there anything else about your condition that you think I should know? Any concerns or questions you have?",
       follow_ups :=
         ["What worries you most about this condition?",
          "Is there anything that doesn\x27t seem to fit the pattern?",
          "What questions do you have about your condition?"],
       data_points := ["additional_symptoms", "patient_concerns", "unusual_features", "questions"],
       priority := 3 }])]

/-- InjuryAssessmentPrompts.get_phase_questions: dictionary lookup by the
phase value string, defaulting to the empty list. -/
def get_phase_questions (phase : AssessmentPhase) : List AssessmentQuestion :=
  ((questions.find? (fun kv => kv.1 == phase.value)).map Prod.snd).getD []

/-- Questions in dictionary iteration order, as get_question_by_id visits them. -/
def allQuestions : List AssessmentQuestion :=
  (questions.map Prod.snd).flatten

/-- InjuryAssessmentPrompts.get_question_by_id: first question whose id matches. -/
def get_question_by_id (question_id : String) : Option AssessmentQuestion :=
  allQuestions.find? (fun q => q.id == question_id)

/-- InjuryAssessmentPrompts.get_adaptive_follow_up. -/
def get_adaptive_follow_up (question_id user_response : String) : String :=
  match get_question_by_id question_id with
  | none => "Can you tell me more about that?"
  | some question =>
    let response_lower := pyLower user_response
    if question_id == "pain_severity" &&
        (["10", "severe", "terrible", "worst"].any (fun w => pyContains response_lower w)) then
      "That sounds very intense. Have you experienced pain this severe before? Have you been able to find anything that helps even a little?"
    else if question_id == "pain_location" && pyContains response_lower "back" then
      "When you say back pain, can you be more specific? Is it in your lower back, middle back, or upper back? Does it go into your legs at all?"
    else if question_id == "injury_mechanism" &&
        (["fall", "fell", "trip"].any (fun w => pyContains response_lower w)) then
      "That sounds like it could have been quite a fall. Did you land on a specific part of your body? Did you hit your head at all?"
    else
      match question.follow_ups with
      | [] => "Can you tell me more about that?"
      | f :: _ => f

/-- Values stored in the extracted_data dictionary: raw response strings,
the numeric pain level, and keyword-match lists. -/
inductive ExtractedValue where
  | str (s : String)
  | num (n : Nat)
  | strList (l : List String)
deriving DecidableEq

/-- Insertion-ordered string-keyed dictionary, as a Python dict. -/
abbrev ExtractedData := List (String × ExtractedValue)

/-- Python dict assignment: overwrite in place when the key exists,
append otherwise. -/
def dictInsert (d : ExtractedData) (k : String) (v : ExtractedValue) : ExtractedData :=
  if d.any (fun p => p.1 == k) then
    d.map (fun p => if p.1 == k then (k, v) else p)
  else
    d ++ [(k, v)]

/-- Python dict lookup returning the value at a key, when present. -/
def dictGet (d : ExtractedData) (k : String) : Option ExtractedValue :=
  (d.find? (fun p => p.1 == k)).map Prod.snd

/-- Python dict.update: assign every pair of the new dictionary in order. -/
def dictUpdate (d new : ExtractedData) : ExtractedData :=
  new.foldl (fun acc kv => dictInsert acc kv.1 kv.2) d

/-- The UserResponse dataclass, minus its wall-clock timestamp. -/
structure UserResponse where
  question_id : String
  response : String
  follow_up_asked : Option String := none
  follow_up_response : Option String := none
deriving DecidableEq

/-- The AssessmentData dataclass, minus its wall-clock start_time. -/
structure AssessmentData where
  user_id : String
  session_id : String
  current_phase : AssessmentPhase
  responses : List UserResponse
  extracted_data : ExtractedData
  completion_percentage : ℚ
  priority_score : Int
deriving DecidableEq

/-- The AssessmentManager state: the active_assessments dictionary. -/
structure AssessmentManager where
  active_assessments : List (String × AssessmentData)
deriving DecidableEq

/-- Dictionary lookup of a session. -/
def getAssessment (m : AssessmentManager) (session_id : String) : Option AssessmentData :=
  ((m.active_assessments.find? (fun p => p.1 == session_id)).map Prod.snd)

/-- Dictionary assignment of a session. -/
def setAssessment (m : AssessmentManager) (session_id : String) (a : AssessmentData) :
    AssessmentManager :=
  ⟨if m.active_assessments.any (fun p => p.1 == session_id) then
      m.active_assessments.map (fun p => if p.1 == session_id then (session_id, a) else p)
    else
      m.active_assessments ++ [(session_id, a)]⟩

/-- AssessmentManager.start_assessment. The Python default initial_complaint
of None and the truthiness test are modelled by an Option plus an emptiness
test. -/
def start_assessment (m : AssessmentManager) (user_id session_id : String)
    (initial_complaint : Option String) : AssessmentData × AssessmentManager :=
  let assessment : AssessmentData :=
    { user_id := user_id
      session_id := session_id
      current_phase := .initial_screening
      responses := []
      extracted_data := []
      completion_percentage := 0
      priority_score := 0 }
  let assessment :=
    match initial_complaint with
    | some c =>
        if c == "" then assessment
        else { assessment with
                 extracted_data := dictInsert assessment.extracted_data "initial_complaint" (.str c) }
    | none => assessment
  (assessment, setAssessment m session_id assessment)

/-- The phase_order list of AssessmentManager._get_next_phase. -/
def phase_order : List AssessmentPhase :=
  [.initial_screening, .pain_characteristics, .functional_impact,
   .medical_history, .lifestyle_factors, .follow_up]

/-- Index of a phase in phase_order. -/
def phaseIdx : AssessmentPhase → Nat
  | .initial_screening => 0
  | .pain_characteristics => 1
  | .functional_impact => 2
  | .medical_history => 3
  | .lifestyle_factors => 4
  | .follow_up => 5

/-- AssessmentManager._get_next_phase: the successor in phase_order, none at
the end. -/
def _get_next_phase : AssessmentPhase → Option AssessmentPhase
  | .initial_screening => some .pain_characteristics
  | .pain_characteristics => some .functional_impact
  | .functional_impact => some .medical_history
  | .medical_history => some .lifestyle_factors
  | .lifestyle_factors => some .follow_up
  | .follow_up => none

/-- The phases strictly after a phase in phase_order. -/
def phasesAfter (p : AssessmentPhase) : List AssessmentPhase :=
  phase_order.drop (phaseIdx p + 1)

/-- Question ids already answered in a session. -/
def askedIds (a : AssessmentData) : List String :=
  a.responses.map (fun r => r.question_id)

/-- The unanswered questions of a phase, in bank order. -/
def unansweredIn (p : AssessmentPhase) (asked : List String) : List AssessmentQuestion :=
  (get_phase_questions p).filter (fun q => !(asked.contains q.id))

/-- Python min with a priority key over a nonempty list: the first element
attaining the minimal priority. -/
def minByPriority (q : AssessmentQuestion) (qs : List AssessmentQuestion) : AssessmentQuestion :=
  qs.foldl (fun best x => if x.priority < best.priority then x else best) q

/-- The phase-walking recursion of AssessmentManager.get_next_question:
pick the highest-priority unanswered question of the current phase, else
advance through the remaining phases; the returned phase is the final value
of current_phase. -/
def selectFrom (asked : List String) : AssessmentPhase → List AssessmentPhase →
    Option AssessmentQuestion × AssessmentPhase
  | p, rest =>
    match unansweredIn p asked with
    | q :: qs => (some (minByPriority q qs), p)
    | [] =>
      match rest with
      | [] => (none, p)
      | p' :: rest' => selectFrom asked p' rest'

/-- Question selection for a session, entering the walk at its current phase. -/
def selectNextQuestion (a : AssessmentData) : Option AssessmentQuestion × AssessmentPhase :=
  selectFrom (askedIds a) a.current_phase (phasesAfter a.current_phase)

/-- AssessmentManager.get_next_question: format the selected question
(AssessmentManager._format_question returns the question text) and store the
advanced phase; unknown sessions yield none and leave the state unchanged. -/
def get_next_question (m : AssessmentManager) (session_id : String) :
    Option String × AssessmentManager :=
  match getAssessment m session_id with
  | none => (none, m)
  | some a =>
    let sel := selectNextQuestion a
    (sel.1.map (fun q => q.question), setAssessment m session_id { a with current_phase := sel.2 })

/-- Body-region vocabulary of _extract_data_points. -/
def body_regions : List String :=
  ["head", "neck", "shoulder", "arm", "elbow", "wrist", "hand",
   "chest", "back", "abdomen", "hip", "thigh", "knee", "shin",
   "ankle", "foot", "spine", "lower back", "upper back"]

/-- Pain-descriptor vocabulary of _extract_data_points. -/
def pain_descriptor_words : List String :=
  ["sharp", "dull", "burning", "aching", "throbbing", "stabbing",
   "cramping", "shooting", "tingling", "numbness", "stiffness"]

/-- Injury-mechanism vocabulary of _extract_data_points. -/
def mechanism_words : List String :=
  ["fall", "twist", "lift", "bend", "slip", "trip", "crash",
   "sports", "accident", "sudden", "gradual", "repetitive"]

/-- AssessmentManager._extract_data_points. -/
def _extract_data_points (question_id response : String) : ExtractedData :=
  match get_question_by_id question_id with
  | none => []
  | some question =>
    let response_lower := pyLower response
    let extracted : ExtractedData :=
      if question_id == "pain_severity" then
        match pyFindNumbers response with
        | n :: _ => [("pain_level_current", .num n)]
        | [] => []
      else if question_id == "pain_location" then
        let mentioned := body_regions.filter (fun r => pyContains response_lower r)
        if mentioned.isEmpty then [] else [("affected_body_regions", .strList mentioned)]
      else if question_id == "pain_quality" then
        let mentioned := pain_descriptor_words.filter (fun d => pyContains response_lower d)
        if mentioned.isEmpty then [] else [("pain_descriptors", .strList mentioned)]
      else if question_id == "injury_mechanism" then
        let mentioned := mechanism_words.filter (fun w => pyContains response_lower w)
        if mentioned.isEmpty then [] else [("injury_mechanisms", .strList mentioned)]
      else []
    question.data_points.foldl (fun d dp => dictInsert d (dp ++ "_raw") (.str response)) extracted

/-- High-priority indicator keywords of _update_priority_score. -/
def high_priority_indicators : List String :=
  ["10", "severe", "unbearable", "worst", "emergency",
   "numbness", "weakness", "can\x27t move", "tingling",
   "fever", "nausea", "dizzy", "confused"]

/-- Medium-priority indicator keywords of _update_priority_score. -/
def medium_priority_indicators : List String :=
  ["8", "9", "very painful", "difficult", "hard to",
   "swelling", "bruising", "stiff", "limited"]

/-- Recency keywords of _update_priority_score. -/
def recency_words : List String :=
  ["today", "yesterday", "sudden", "suddenly", "just started"]

/-- AssessmentManager._update_priority_score, as the new score value. -/
def _update_priority_score (priority_score : Int) (question_id response : String) : Int :=
  let response_lower := pyLower response
  let s :=
    if high_priority_indicators.any (fun w => pyContains response_lower w) then
      priority_score + 10
    else if medium_priority_indicators.any (fun w => pyContains response_lower w) then
      priority_score + 5
    else
      priority_score
  if question_id == "pain_chief_complaint" &&
      recency_words.any (fun w => pyContains response_lower w) then
    s + 3
  else
    s

/-- The per-response score contribution as the specification states it: 10
for a high-urgency keyword, else 5 for a medium-urgency keyword, plus an
independent 3 for a recency word on the chief-complaint question. -/
def scoreDelta (question_id response : String) : Int :=
  let response_lower := pyLower response
  (if high_priority_indicators.any (fun w => pyContains response_lower w) then (10 : Int)
   else if medium_priority_indicators.any (fun w => pyContains response_lower w) then 5
   else 0) +
  (if question_id == "pain_chief_complaint" &&
      recency_words.any (fun w => pyContains response_lower w) then (3 : Int)
   else 0)

/-- Total question count summed over the dictionary values. -/
def total_question_count : Nat :=
  (questions.map (fun kv => kv.2.length)).sum

/-- AssessmentManager._calculate_completion. -/
def _calculate_completion (a : AssessmentData) : ℚ :=
  min 100 (((a.responses.length : ℚ) / (total_question_count : ℚ)) * 100)

/-- AssessmentManager._should_ask_follow_up. Every Python path returns a
string, so the Optional[str] signature is modelled as String; the truthiness
test made on it in process_response becomes an emptiness test. -/
def _should_ask_follow_up (question_id response : String) : String :=
  if (pySplitWs response).length < 3 then
    "Could you tell me a bit more about that?"
  else
    get_adaptive_follow_up question_id response

/-- The result dictionary of AssessmentManager.process_response. -/
inductive ProcessResult where
  | error (message : String)
  | ok (extracted_data : ExtractedData) (follow_up : String)
       (completion_percentage : ℚ) (priority_score : Int)
       (next_question : Option String)
deriving DecidableEq

/-- The body of AssessmentManager.process_response acting on the looked-up
session object: append the response, merge extracted data, rescore, update
completion, and compute the next question only when the follow-up is falsy. -/
def process_response_data (a : AssessmentData) (question_id user_response : String) :
    ProcessResult × AssessmentData :=
  let a := { a with responses :=
               a.responses ++ [({ question_id := question_id, response := user_response } : UserResponse)] }
  let extracted_data := _extract_data_points question_id user_response
  let a := { a with extracted_data := dictUpdate a.extracted_data extracted_data }
  let a := { a with priority_score := _update_priority_score a.priority_score question_id user_response }
  let a := { a with completion_percentage := _calculate_completion a }
  let follow_up := _should_ask_follow_up question_id user_response
  if follow_up == "" then
    let sel := selectNextQuestion a
    let a := { a with current_phase := sel.2 }
    (.ok extracted_data follow_up a.completion_percentage a.priority_score
       (sel.1.map (fun q => q.question)), a)
  else
    (.ok extracted_data follow_up a.completion_percentage a.priority_score none, a)

/-- AssessmentManager.process_response: unknown sessions get the error
dictionary and no state change. -/
def process_response (m : AssessmentManager) (session_id question_id user_response : String) :
    ProcessResult × AssessmentManager :=
  match getAssessment m session_id with
  | none => (.error "Assessment session not found", m)
  | some a =>
    let r := process_response_data a question_id user_response
    (r.1, setAssessment m session_id r.2)

/-- The numeric value stored at pain_level_current, when present. The source
compares it with int thresholds; only _extract_data_points writes that key
and it always writes an int. -/
def painLevelCurrent (d : ExtractedData) : Option Nat :=
  match dictGet d "pain_level_current" with
  | some (.num n) => some n
  | _ => none

/-- The descriptor list stored at pain_descriptors; data.get defaults to the
empty list, and only _extract_data_points writes that key, always a list. -/
def painDescriptorsOf (d : ExtractedData) : List String :=
  match dictGet d "pain_descriptors" with
  | some (.strList l) => l
  | _ => []

/-- AssessmentManager._generate_key_findings. -/
def _generate_key_findings (a : AssessmentData) : List String :=
  (match painLevelCurrent a.extracted_data with
   | some level =>
       if level ≥ 8 then ["Severe pain reported (level " ++ toString level ++ "/10)"]
       else if level ≥ 5 then ["Moderate pain reported (level " ++ toString level ++ "/10)"]
       else []
   | none => []) ++
  (match dictGet a.extracted_data "affected_body_regions" with
   | some (.strList regions) => ["Pain affecting: " ++ String.intercalate ", " regions]
   | _ => []) ++
  (match dictGet a.extracted_data "pain_descriptors" with
   | some (.strList descriptors) => ["Pain quality: " ++ String.intercalate ", " descriptors]
   | _ => []) ++
  (if a.priority_score > 15 then ["High priority case - multiple concerning features"] else [])

/-- AssessmentManager._generate_recommendations. -/
def _generate_recommendations (a : AssessmentData) : List String :=
  (if a.priority_score > 20 then ["Recommend urgent medical evaluation"]
   else if a.priority_score > 10 then ["Recommend medical evaluation within 24-48 hours"]
   else []) ++
  (match painLevelCurrent a.extracted_data with
   | some level => if level ≥ 7 then ["Consider pain management strategies"] else []
   | none => []) ++
  (if ["burning", "tingling"].any (fun d => (painDescriptorsOf a.extracted_data).contains d) then
     ["Neurological evaluation may be warranted"]
   else [])

/-- Red-flag keywords of _identify_red_flags. -/
def red_flag_keywords : List String :=
  ["numbness", "weakness", "can\x27t move", "paralysis",
   "severe headache", "fever", "nausea", "vomiting",
   "loss of consciousness", "confusion", "chest pain"]

/-- AssessmentManager._identify_red_flags. -/
def _identify_red_flags (a : AssessmentData) : List String :=
  (a.responses.filter (fun r =>
      red_flag_keywords.any (fun w => pyContains (pyLower r.response) w))).map
    (fun r => "Red flag identified: " ++ String.mk (r.response.toList.take 100) ++ "...")

/-- AssessmentManager._get_question_text. -/
def _get_question_text (question_id : String) : String :=
  match get_question_by_id question_id with
  | some q => q.question
  | none => "Unknown question"

/-- The summary dictionary of get_assessment_summary, minus wall-clock
fields (start_time, duration_minutes) and the fixed-shape clinical_data
regrouping of raw fields, which no modelled claim reads. -/
structure AssessmentSummary where
  session_id : String
  completion_percentage : ℚ
  priority_score : Int
  key_findings : List String
  recommendations : List String
  red_flags : List String
  raw_responses : List (String × String)
deriving DecidableEq

/-- AssessmentManager.get_assessment_summary: none for unknown sessions. -/
def get_assessment_summary (m : AssessmentManager) (session_id : String) :
    Option AssessmentSummary :=
  match getAssessment m session_id with
  | none => none
  | some a =>
    some { session_id := session_id
           completion_percentage := a.completion_percentage
           priority_score := a.priority_score
           key_findings := _generate_key_findings a
           recommendations := _generate_recommendations a
           red_flags := _identify_red_flags a
           raw_responses := a.responses.map (fun r => (_get_question_text r.question_id, r.response)) }

/-- Iterated process_response calls on one session. -/
def runResponses (m : AssessmentManager) (session_id : String) :
    List (String × String) → AssessmentManager
  | [] => m
  | (qid, resp) :: rs => runResponses (process_response m session_id qid resp).2 session_id rs

/-- One step of the normal non-follow-up flow on session data: answer the
question that get_next_question would pose, adopting its phase advance. -/
def answerNext (a : AssessmentData) (resp : String) : AssessmentData :=
  match (selectNextQuestion a).1 with
  | none => a
  | some q =>
    (process_response_data { a with current_phase := (selectNextQuestion a).2 } q.id resp).2

/-- The normal non-follow-up flow: repeatedly answer the posed question. -/
def runNormalFlow (a : AssessmentData) : List String → AssessmentData
  | [] => a
  | r :: rs => runNormalFlow (answerNext a r) rs

/-- The scenario of the specification: a fresh manager starting a session
with the initial complaint about severe back pain. -/
def demoStart : AssessmentData × AssessmentManager :=
  start_assessment ⟨[]⟩ "user1" "s1" (some "severe back pain after lifting boxes")

/-- The session data right after the scenario start. -/
def demoA : AssessmentData := demoStart.1

/-- The manager state right after the scenario start. -/
def demoM : AssessmentManager := demoStart.2

/-- The verbatim chief-complaint answer of the scenario. -/
def demoResponse : String := "I have severe lower back pain... started yesterday"

/-- The scenario continued: the chief-complaint question answered. -/
def demoProc : ProcessResult × AssessmentManager :=
  process_response demoM "s1" "pain_chief_complaint" demoResponse

/-- A session whose priority score sits above the urgent threshold, used to
instantiate the recommendation theorem. -/
def highScoreA : AssessmentData :=
  { user_id := "u2"
    session_id := "s2"
    current_phase := .initial_screening
    responses := []
    extracted_data := []
    completion_percentage := 0
    priority_score := 25 }

theorem find_set_aux (sid : String) (a : AssessmentData) :
    ∀ (l : List (String × AssessmentData)),
      (l.find? (fun p => p.1 == sid)).isSome = true →
      ((if l.any (fun p => p.1 == sid) then
          l.map (fun p => if p.1 == sid then (sid, a) else p)
        else l ++ [(sid, a)]).find? (fun p => p.1 == sid)) = some (sid, a) := by
  intro l
  induction l with
  | nil => intro h; simp at h
  | cons x xs ih =>
    intro h
    by_cases hx : (x.1 == sid) = true
    · have hany : (x :: xs).any (fun p => p.1 == sid) = true := by
        simp [List.any_cons, hx]
      rw [if_pos hany, List.map_cons, if_pos hx, List.find?_cons_of_pos]
      simp
    · have hxf : (x.1 == sid) = false := eq_false_of_ne_true hx
      have hfind : (xs.find? (fun p => p.1 == sid)).isSome = true := by
        rw [List.find?_cons] at h
        simpa [hxf] using h
      have hany2 : xs.any (fun p => p.1 == sid) = true := by
        rcases List.find?_isSome.mp hfind with ⟨y, hy, hpy⟩
        exact List.any_eq_true.mpr ⟨y, hy, hpy⟩
      have hany : (x :: xs).any (fun p => p.1 == sid) = true := by
        simp [List.any_cons, hany2]
      rw [if_pos hany, List.map_cons, if_neg hx, List.find?_cons]
      have := ih hfind
      rw [if_pos hany2] at this
      simpa [hxf] using this

theorem getAssessment_set (m : AssessmentManager) (sid : String) (a b : AssessmentData)
    (h : getAssessment m sid = some b) :
    getAssessment (setAssessment m sid a) sid = some a := by
  have hs : (m.active_assessments.find? (fun p => p.1 == sid)).isSome = true := by
    cases hf : m.active_assessments.find? (fun p => p.1 == sid) with
    | none => unfold getAssessment at h; rw [hf] at h; simp at h
    | some x => simp
  unfold getAssessment setAssessment
  rw [find_set_aux sid a _ hs]
  rfl

theorem adaptive_follow_up_ne_empty (qid resp : String) :
    get_adaptive_follow_up qid resp ≠ "" := by
  cases hq : get_question_by_id qid with
  | none => simp [get_adaptive_follow_up, hq]
  | some q =>
    have hq' : allQuestions.find? (fun q' => q'.id == qid) = some q := hq
    have hmem : q ∈ allQuestions := List.mem_of_find?_eq_some hq'
    have hfu : ∀ q' ∈ allQuestions, q'.follow_ups.headD "?" ≠ "" := by decide
    have hq_fu := hfu q hmem
    simp only [get_adaptive_follow_up, hq]
    split
    · decide
    · split
      · decide
      · split
        · decide
        · cases hl : q.follow_ups with
          | nil => decide
          | cons f fs =>
            rw [hl, List.headD_cons] at hq_fu
            simpa [hl] using hq_fu

theorem should_ask_follow_up_ne_empty (qid resp : String) :
    _should_ask_follow_up qid resp ≠ "" := by
  unfold _should_ask_follow_up
  split
  · decide
  · exact adaptive_follow_up_ne_empty qid resp

theorem process_response_data_eq (a : AssessmentData) (qid resp : String) :
    process_response_data a qid resp =
      (ProcessResult.ok (_extract_data_points qid resp) (_should_ask_follow_up qid resp)
         (min 100 ((((a.responses.length : ℚ) + 1) / (total_question_count : ℚ)) * 100))
         (_update_priority_score a.priority_score qid resp) none,
       { a with
           responses := a.responses ++ [({ question_id := qid, response := resp } : UserResponse)]
           extracted_data := dictUpdate a.extracted_data (_extract_data_points qid resp)
           priority_score := _update_priority_score a.priority_score qid resp
           completion_percentage :=
             min 100 ((((a.responses.length : ℚ) + 1) / (total_question_count : ℚ)) * 100) }) := by
  have h : (_should_ask_follow_up qid resp == "") = false :=
    beq_eq_false_iff_ne.mpr (should_ask_follow_up_ne_empty qid resp)
  unfold process_response_data
  simp [h, _calculate_completion]

theorem process_response_active (m : AssessmentManager) (sid qid resp : String)
    (a : AssessmentData) (h : getAssessment m sid = some a) :
    process_response m sid qid resp =
      ((process_response_data a qid resp).1,
        setAssessment m sid (process_response_data a qid resp).2) := by
  unfold process_response
  rw [h]

theorem minByPriority_mem (q : AssessmentQuestion) (qs : List AssessmentQuestion) :
    minByPriority q qs ∈ q :: qs := by
  induction qs generalizing q with
  | nil => simp [minByPriority]
  | cons x xs ih =>
    unfold minByPriority at ih ⊢
    rw [List.foldl_cons]
    have h := ih (if x.priority < q.priority then x else q)
    rcases List.mem_cons.mp h with h' | h'
    · rw [h']
      by_cases hx : x.priority < q.priority
      · simp [hx]
      · simp [hx]
    · simp [List.mem_cons, h']

theorem minByPriority_le (q : AssessmentQuestion) (qs : List AssessmentQuestion) :
    ∀ x ∈ q :: qs, (minByPriority q qs).priority ≤ x.priority := by
  induction qs generalizing q with
  | nil =>
    intro x hx
    rcases List.mem_cons.mp hx with h | h
    · rw [h]; simp [minByPriority]
    · simp at h
  | cons y ys ih =>
    intro x hx
    unfold minByPriority at ih ⊢
    rw [List.foldl_cons]
    have hle_q : (if y.priority < q.priority then y else q).priority ≤ q.priority := by
      split <;> omega
    have hle_y : (if y.priority < q.priority then y else q).priority ≤ y.priority := by
      split <;> omega
    have hhead := ih (if y.priority < q.priority then y else q)
        (if y.priority < q.priority then y else q) (List.mem_cons_self _ _)
    rcases List.mem_cons.mp hx with h | h
    · rw [h] at *
      exact le_trans hhead hle_q
    · rcases List.mem_cons.mp h with h' | h'
      · rw [h'] at *
        exact le_trans hhead hle_y
      · exact ih (if y.priority < q.priority then y else q) x (List.mem_cons_of_mem _ h')

theorem phaseIdx_inj (p r : AssessmentPhase) (h : phaseIdx p = phaseIdx r) : p = r := by
  cases p <;> cases r <;> simp_all [phaseIdx]

theorem phaseIdx_le_five (p : AssessmentPhase) : phaseIdx p ≤ 5 := by
  cases p <;> simp [phaseIdx]

theorem phasesAfter_cons (p p' : AssessmentPhase) (l : List AssessmentPhase)
    (h : phasesAfter p = p' :: l) : phaseIdx p' = phaseIdx p + 1 ∧ l = phasesAfter p' := by
  cases p <;> simp [phasesAfter, phase_order, phaseIdx] at h ⊢ <;>
    obtain ⟨rfl, rfl⟩ := h <;> simp [phasesAfter, phase_order, phaseIdx]

theorem phasesAfter_nil (p : AssessmentPhase) (h : phasesAfter p = []) :
    p = AssessmentPhase.follow_up := by
  cases p <;> simp_all [phasesAfter, phase_order, phaseIdx]

theorem selectFrom_spec (asked : List String) :
    ∀ (rest : List AssessmentPhase) (p : AssessmentPhase), rest = phasesAfter p →
      ((∀ q p', selectFrom asked p rest = (some q, p') →
          q ∈ unansweredIn p' asked ∧
          (∀ x ∈ unansweredIn p' asked, q.priority ≤ x.priority) ∧
          phaseIdx p ≤ phaseIdx p' ∧
          (∀ r, phaseIdx p ≤ phaseIdx r → phaseIdx r < phaseIdx p' →
             unansweredIn r asked = [])) ∧
       (∀ p', selectFrom asked p rest = (none, p') →
          p' = AssessmentPhase.follow_up ∧ phaseIdx p ≤ phaseIdx p' ∧
          (∀ r, phaseIdx p ≤ phaseIdx r → unansweredIn r asked = []))) := by
  intro rest
  induction rest with
  | nil =>
    intro p hp
    have hpf : p = AssessmentPhase.follow_up := phasesAfter_nil p hp.symm
    subst hpf
    constructor
    · intro q p' hsel
      rw [selectFrom] at hsel
      cases hu : unansweredIn AssessmentPhase.follow_up asked with
      | nil => rw [hu] at hsel; simp at hsel
      | cons y ys =>
        rw [hu] at hsel
        simp only [Prod.mk.injEq, Option.some.injEq] at hsel
        obtain ⟨rfl, rfl⟩ := hsel
        refine ⟨?_, ?_, le_refl _, ?_⟩
        · rw [hu]; exact minByPriority_mem y ys
        · rw [hu]; exact minByPriority_le y ys
        · intro r h1 h2; omega
    · intro p' hsel
      rw [selectFrom] at hsel
      cases hu : unansweredIn AssessmentPhase.follow_up asked with
      | cons y ys => rw [hu] at hsel; simp at hsel
      | nil =>
        rw [hu] at hsel
        simp only [Prod.mk.injEq] at hsel
        obtain ⟨-, rfl⟩ := hsel
        refine ⟨rfl, le_refl _, ?_⟩
        intro r hr
        have h5 := phaseIdx_le_five r
        have h55 : phaseIdx AssessmentPhase.follow_up = 5 := rfl
        have heq : phaseIdx r = phaseIdx AssessmentPhase.follow_up := by omega
        rw [phaseIdx_inj r AssessmentPhase.follow_up heq]
        exact hu
  | cons p'' rest' ih =>
    intro p hp
    obtain ⟨hidx, hrest'⟩ := phasesAfter_cons p p'' rest' hp.symm
    have IH := ih p'' hrest'
    constructor
    · intro q p' hsel
      rw [selectFrom] at hsel
      cases hu : unansweredIn p asked with
      | cons y ys =>
        rw [hu] at hsel
        simp only [Prod.mk.injEq, Option.some.injEq] at hsel
        obtain ⟨rfl, rfl⟩ := hsel
        refine ⟨?_, ?_, le_refl _, ?_⟩
        · rw [hu]; exact minByPriority_mem y ys
        · rw [hu]; exact minByPriority_le y ys
        · intro r h1 h2; omega
      | nil =>
        rw [hu] at hsel
        have hspec := IH.1 q p' hsel
        obtain ⟨hq1, hq2, hq3, hq4⟩ := hspec
        refine ⟨hq1, hq2, by omega, ?_⟩
        intro r h1 h2
        by_cases hr : phaseIdx r = phaseIdx p
        · rw [phaseIdx_inj r p hr]; exact hu
        · exact hq4 r (by omega) h2
    · intro p' hsel
      rw [selectFrom] at hsel
      cases hu : unansweredIn p asked with
      | cons y ys => rw [hu] at hsel; simp at hsel
      | nil =>
        rw [hu] at hsel
        have hspec := IH.2 p' hsel
        obtain ⟨hq1, hq2, hq3⟩ := hspec
        refine ⟨hq1, by omega, ?_⟩
        intro r h1
        by_cases hr : phaseIdx r = phaseIdx p
        · rw [phaseIdx_inj r p hr]; exact hu
        · exact hq3 r (by omega)

/-- C1: for every active session, get_next_question formats and returns the
question selected by the phase walk and stores the advanced phase; the
selected question is an unanswered question of the final current phase with
minimal priority number there; every phase passed over on the way was
exhausted; the result is none exactly when every phase from the current one
on is exhausted; and the returned question is never one whose id is already
among the recorded responses. -/
theorem next_question_correct (m : AssessmentManager) (sid : String) (a : AssessmentData)
    (h : getAssessment m sid = some a) :
    get_next_question m sid =
      ((selectNextQuestion a).1.map (fun q => q.question),
        setAssessment m sid { a with current_phase := (selectNextQuestion a).2 }) ∧
    (∀ q, (selectNextQuestion a).1 = some q →
        q ∈ unansweredIn (selectNextQuestion a).2 (askedIds a) ∧
        ¬ q.id ∈ askedIds a ∧
        (∀ x ∈ unansweredIn (selectNextQuestion a).2 (askedIds a), q.priority ≤ x.priority) ∧
        phaseIdx a.current_phase ≤ phaseIdx (selectNextQuestion a).2 ∧
        (∀ r, phaseIdx a.current_phase ≤ phaseIdx r →
              phaseIdx r < phaseIdx (selectNextQuestion a).2 →
              unansweredIn r (askedIds a) = [])) ∧
    ((selectNextQuestion a).1 = none →
        ∀ r, phaseIdx a.current_phase ≤ phaseIdx r → unansweredIn r (askedIds a) = []) := by
  have hspec := selectFrom_spec (askedIds a) (phasesAfter a.current_phase) a.current_phase rfl
  refine ⟨?_, ?_, ?_⟩
  · unfold get_next_question
    rw [h]
  · intro q hq
    have hsel : selectFrom (askedIds a) a.current_phase (phasesAfter a.current_phase)
        = (some q, (selectNextQuestion a).2) := by
      rw [← hq]
      exact Prod.mk.eta.symm
    obtain ⟨h1, h2, h3, h4⟩ := hspec.1 q _ hsel
    refine ⟨h1, ?_, h2, h3, h4⟩
    intro hmem
    have hp := List.of_mem_filter h1
    simp at hp
    exact hp hmem
  · intro hnone r hr
    have hsel : selectFrom (askedIds a) a.current_phase (phasesAfter a.current_phase)
        = (none, (selectNextQuestion a).2) := by
      rw [← hnone]
      exact Prod.mk.eta.symm
    exact (hspec.2 _ hsel).2.2 r hr

theorem next_question_correct_witness :
    getAssessment demoM "s1" = some demoA ∧
    ∃ q, (selectNextQuestion demoA).1 = some q ∧ ¬ q.id ∈ askedIds demoA := by
  refine ⟨rfl, ?_⟩
  obtain ⟨q, hq⟩ := Option.isSome_iff_exists.mp
    (show ((selectNextQuestion demoA).1.isSome = true) from rfl)
  exact ⟨q, hq, ((next_question_correct demoM "s1" demoA rfl).2.1 q hq).2.1⟩

theorem process_response_state (m : AssessmentManager) (sid qid resp : String)
    (a : AssessmentData) (h : getAssessment m sid = some a) :
    getAssessment (process_response m sid qid resp).2 sid =
      some (process_response_data a qid resp).2 := by
  rw [process_response_active m sid qid resp a h]
  exact getAssessment_set m sid _ a h

theorem update_eq_delta (s : Int) (qid resp : String) :
    _update_priority_score s qid resp = s + scoreDelta qid resp := by
  simp only [_update_priority_score, scoreDelta]
  split_ifs <;> omega

theorem delta_nonneg (qid resp : String) : 0 ≤ scoreDelta qid resp := by
  simp only [scoreDelta]
  split_ifs <;> omega

theorem runResponses_score (sid : String) :
    ∀ (rs : List (String × String)) (m : AssessmentManager) (a : AssessmentData),
      getAssessment m sid = some a →
      ∃ b, getAssessment (runResponses m sid rs) sid = some b ∧
        b.priority_score = a.priority_score + (rs.map (fun p => scoreDelta p.1 p.2)).sum := by
  intro rs
  induction rs with
  | nil => intro m a h; exact ⟨a, h, by simp⟩
  | cons x xs ih =>
    intro m a h
    obtain ⟨q, r⟩ := x
    have hstep := process_response_state m sid q r a h
    obtain ⟨b, hb, hscore⟩ := ih _ _ hstep
    have hone : ((process_response_data a q r).2).priority_score =
        a.priority_score + scoreDelta q r := by
      rw [process_response_data_eq]
      exact update_eq_delta a.priority_score q r
    refine ⟨b, hb, ?_⟩
    rw [hscore, hone]
    simp [List.map_cons, List.sum_cons]
    ring

theorem completion_mono (n k : ℕ) (h : n ≤ k) :
    min (100 : ℚ) (((n : ℚ) / (total_question_count : ℚ)) * 100) ≤
      min 100 (((k : ℚ) / (total_question_count : ℚ)) * 100) := by
  have h18 : total_question_count = 18 := rfl
  apply min_le_min (le_refl _)
  apply mul_le_mul_of_nonneg_right ?_ (by norm_num)
  rw [h18]
  apply (div_le_div_iff_of_pos_right (by norm_num)).mpr
  exact_mod_cast h

/-- C2: every process_response call on an active session adds exactly the
keyword-scoring contribution to the priority score: 10 on a high-urgency
keyword, else 5 on a medium-urgency keyword, plus an independent 3 when the
chief-complaint question has a recency word; the contribution is never
negative, so the score is non-decreasing, and over any sequence of calls the
score equals the starting score plus the sum of the contributions. -/
theorem priority_score_additive (m : AssessmentManager) (sid qid resp : String)
    (a : AssessmentData) (rs : List (String × String))
    (h : getAssessment m sid = some a) :
    0 ≤ scoreDelta qid resp ∧
    (∃ a', getAssessment (process_response m sid qid resp).2 sid = some a' ∧
        a'.priority_score = a.priority_score + scoreDelta qid resp ∧
        a.priority_score ≤ a'.priority_score) ∧
    (∃ b, getAssessment (runResponses m sid rs) sid = some b ∧
        b.priority_score = a.priority_score + (rs.map (fun p => scoreDelta p.1 p.2)).sum ∧
        a.priority_score ≤ b.priority_score) := by
  refine ⟨delta_nonneg qid resp, ?_, ?_⟩
  · refine ⟨(process_response_data a qid resp).2, process_response_state m sid qid resp a h, ?_, ?_⟩
    · rw [process_response_data_eq]
      exact update_eq_delta a.priority_score qid resp
    · rw [process_response_data_eq]
      have := update_eq_delta a.priority_score qid resp
      have := delta_nonneg qid resp
      simp only [this]
      omega
  · obtain ⟨b, hb, hs⟩ := runResponses_score sid rs m a h
    refine ⟨b, hb, hs, ?_⟩
    have hsum : 0 ≤ (rs.map (fun p => scoreDelta p.1 p.2)).sum := by
      apply List.sum_nonneg
      intro x hx
      obtain ⟨p, -, rfl⟩ := List.mem_map.mp hx
      exact delta_nonneg p.1 p.2
    omega

theorem priority_score_additive_witness :
    getAssessment demoM "s1" = some demoA ∧
    ∃ b, getAssessment (runResponses demoM "s1" [("pain_chief_complaint", demoResponse)]) "s1"
          = some b ∧
        b.priority_score = demoA.priority_score +
          ([("pain_chief_complaint", demoResponse)].map
            (fun p => scoreDelta p.1 p.2)).sum ∧
        demoA.priority_score ≤ b.priority_score := by
  refine ⟨rfl, ?_⟩
  exact (priority_score_additive demoM "s1" "pain_chief_complaint" demoResponse demoA
    [("pain_chief_complaint", demoResponse)] rfl).2.2

/-- C3: after each process_response call on an active session the completion
percentage equals min of 100 and the answered count over the 18-question
total, scaled to a percentage; it never exceeds 100; and it does not
decrease across successive process_response calls on the same session. -/
theorem completion_correct (m : AssessmentManager) (sid qid resp qid2 resp2 : String)
    (a : AssessmentData) (h : getAssessment m sid = some a) :
    ∃ a', getAssessment (process_response m sid qid resp).2 sid = some a' ∧
      a'.responses.length = a.responses.length + 1 ∧
      a'.completion_percentage =
        min 100 (((a'.responses.length : ℚ) / (total_question_count : ℚ)) * 100) ∧
      a'.completion_percentage ≤ 100 ∧
      ∃ a'', getAssessment
          (process_response (process_response m sid qid resp).2 sid qid2 resp2).2 sid
          = some a'' ∧
        a'.completion_percentage ≤ a''.completion_percentage := by
  refine ⟨(process_response_data a qid resp).2, process_response_state m sid qid resp a h,
    ?_, ?_, ?_, ?_⟩
  · rw [process_response_data_eq]; simp
  · rw [process_response_data_eq]
    simp
  · rw [process_response_data_eq]
    exact min_le_left _ _
  · refine ⟨(process_response_data (process_response_data a qid resp).2 qid2 resp2).2,
      process_response_state _ sid qid2 resp2 _ (process_response_state m sid qid resp a h),
      ?_⟩
    rw [process_response_data_eq, process_response_data_eq]
    simp only []
    have h1 : ((a.responses ++
        [({ question_id := qid, response := resp } : UserResponse)]).length : ℚ)
        = (a.responses.length : ℚ) + 1 := by
      simp
    rw [h1]
    have hm := completion_mono (a.responses.length + 1) (a.responses.length + 2)
      (by omega)
    push_cast at hm ⊢
    have h2 : ((a.responses.length : ℚ) + 1 + 1) = (a.responses.length : ℚ) + 2 := by ring
    rw [h2]
    exact hm

theorem completion_correct_witness :
    getAssessment demoM "s1" = some demoA ∧
    ∃ a', getAssessment (process_response demoM "s1" "pain_chief_complaint" demoResponse).2 "s1"
          = some a' ∧
      a'.responses.length = demoA.responses.length + 1 ∧
      a'.completion_percentage =
        min 100 (((a'.responses.length : ℚ) / (total_question_count : ℚ)) * 100) ∧
      a'.completion_percentage ≤ 100 := by
  refine ⟨rfl, ?_⟩
  obtain ⟨a', h1, h2, h3, h4, -⟩ :=
    completion_correct demoM "s1" "pain_chief_complaint" demoResponse "x" "y" demoA rfl
  exact ⟨a', h1, h2, h3, h4⟩

/-- C4: the phase only moves forward along the fixed order, one step at a
time. start_assessment begins at initial screening; get_next_question can
only advance the stored phase, and every phase passed over was exhausted;
process_response leaves the phase unchanged (its next-question branch that
could advance is guarded by the always-truthy follow-up); and
get_assessment_summary is a read-only function of the state in the source,
embedded here as a pure function. -/
theorem phase_forward (m : AssessmentManager) (sid uid qid resp : String)
    (ic : Option String) (a : AssessmentData) (h : getAssessment m sid = some a) :
    (start_assessment m uid sid ic).1.current_phase = AssessmentPhase.initial_screening ∧
    (∃ a', getAssessment (get_next_question m sid).2 sid = some a' ∧
       a'.current_phase = (selectNextQuestion a).2 ∧
       a'.responses = a.responses ∧
       phaseIdx a.current_phase ≤ phaseIdx a'.current_phase ∧
       (∀ r, phaseIdx a.current_phase ≤ phaseIdx r →
             phaseIdx r < phaseIdx a'.current_phase →
             unansweredIn r (askedIds a) = [])) ∧
    (∃ a'', getAssessment (process_response m sid qid resp).2 sid = some a'' ∧
       a''.current_phase = a.current_phase) := by
  have hspec := selectFrom_spec (askedIds a) (phasesAfter a.current_phase) a.current_phase rfl
  refine ⟨?_, ?_, ?_⟩
  · cases ic with
    | none => rfl
    | some c =>
      by_cases hc : (c == "") = true
      · simp [start_assessment, hc]
      · simp [start_assessment, hc]
  · have hga : getAssessment (get_next_question m sid).2 sid =
        some { a with current_phase := (selectNextQuestion a).2 } := by
      unfold get_next_question
      simp only [h]
      exact getAssessment_set m sid _ a h
    refine ⟨_, hga, rfl, rfl, ?_, ?_⟩
    · cases hsel : (selectNextQuestion a).1 with
      | some q =>
        have hpair : selectFrom (askedIds a) a.current_phase (phasesAfter a.current_phase)
            = (some q, (selectNextQuestion a).2) := by
          rw [← hsel]
          exact Prod.mk.eta.symm
        exact (hspec.1 q _ hpair).2.2.1
      | none =>
        have hpair : selectFrom (askedIds a) a.current_phase (phasesAfter a.current_phase)
            = (none, (selectNextQuestion a).2) := by
          rw [← hsel]
          exact Prod.mk.eta.symm
        exact (hspec.2 _ hpair).2.1
    · intro r h1 h2
      cases hsel : (selectNextQuestion a).1 with
      | some q =>
        have hpair : selectFrom (askedIds a) a.current_phase (phasesAfter a.current_phase)
            = (some q, (selectNextQuestion a).2) := by
          rw [← hsel]
          exact Prod.mk.eta.symm
        exact (hspec.1 q _ hpair).2.2.2 r h1 h2
      | none =>
        have hpair : selectFrom (askedIds a) a.current_phase (phasesAfter a.current_phase)
            = (none, (selectNextQuestion a).2) := by
          rw [← hsel]
          exact Prod.mk.eta.symm
        exact (hspec.2 _ hpair).2.2 r h1
  · refine ⟨(process_response_data a qid resp).2, process_response_state m sid qid resp a h, ?_⟩
    rw [process_response_data_eq]

theorem phase_forward_witness :
    (start_assessment demoM "u9" "s9" none).1.current_phase
      = AssessmentPhase.initial_screening :=
  (phase_forward demoM "s1" "u9" "q0" "r0" none demoA rfl).1

/-- C5: operations on an unknown session id return the error dictionary,
an absent summary and an absent question, raise nothing, and leave the
stored state untouched. -/
theorem unknown_session (m : AssessmentManager) (sid qid resp : String)
    (h : getAssessment m sid = none) :
    process_response m sid qid resp =
      (ProcessResult.error "Assessment session not found", m) ∧
    get_assessment_summary m sid = none ∧
    get_next_question m sid = (none, m) := by
  refine ⟨?_, ?_, ?_⟩
  · unfold process_response
    rw [h]
  · unfold get_assessment_summary
    rw [h]
  · unfold get_next_question
    rw [h]

theorem unknown_session_witness :
    process_response ⟨[]⟩ "ghost" "q" "r" =
      (ProcessResult.error "Assessment session not found", (⟨[]⟩ : AssessmentManager)) ∧
    get_assessment_summary ⟨[]⟩ "ghost" = none ∧
    get_next_question ⟨[]⟩ "ghost" = (none, (⟨[]⟩ : AssessmentManager)) :=
  unknown_session ⟨[]⟩ "ghost" "q" "r" rfl

/-- C6 counterexample: in the specified scenario the stored raw field is not
named pain_chief_complaint_raw; that key is absent from the extracted data,
while the verbatim text sits under chief_complaint_raw, named after the
first declared data point of the question. -/
theorem scenario_raw_field_counterexample :
    ∃ a, getAssessment demoProc.2 "s1" = some a ∧
      dictGet a.extracted_data "pain_chief_complaint_raw" = none ∧
      dictGet a.extracted_data "chief_complaint_raw" = some (.str demoResponse) := by
  refine ⟨(process_response_data demoA "pain_chief_complaint" demoResponse).2,
    process_response_state demoM "s1" "pain_chief_complaint" demoResponse demoA rfl, ?_, ?_⟩
  · rfl
  · rfl

/-- C6 amended: the scenario raises the priority score from 0 to 13, namely
by at least 13, and stores the verbatim response under the raw fields named
after the question data points, in particular chief_complaint_raw. -/
theorem scenario_scoring :
    ∃ a, getAssessment demoProc.2 "s1" = some a ∧
      demoA.priority_score = 0 ∧
      a.priority_score = 13 ∧
      demoA.priority_score + 13 ≤ a.priority_score ∧
      dictGet a.extracted_data "chief_complaint_raw" = some (.str demoResponse) := by
  refine ⟨(process_response_data demoA "pain_chief_complaint" demoResponse).2,
    process_response_state demoM "s1" "pain_chief_complaint" demoResponse demoA rfl,
    rfl, ?_, ?_, rfl⟩
  · rfl
  · rfl

theorem selected_not_asked (a : AssessmentData) (q : AssessmentQuestion)
    (hsel : (selectNextQuestion a).1 = some q) : ¬ q.id ∈ askedIds a := by
  have hspec := selectFrom_spec (askedIds a) (phasesAfter a.current_phase) a.current_phase rfl
  have hpair : selectFrom (askedIds a) a.current_phase (phasesAfter a.current_phase)
      = (some q, (selectNextQuestion a).2) := by
    rw [← hsel]
    exact Prod.mk.eta.symm
  have hmem := (hspec.1 q _ hpair).1
  have hp := List.of_mem_filter hmem
  simp at hp
  exact hp

theorem askedIds_process (a : AssessmentData) (qid resp : String) :
    askedIds (process_response_data a qid resp).2 = askedIds a ++ [qid] := by
  rw [process_response_data_eq]
  simp [askedIds]

theorem answerNext_nodup (a : AssessmentData) (resp : String)
    (h : (askedIds a).Nodup) : (askedIds (answerNext a resp)).Nodup := by
  unfold answerNext
  cases hsel : (selectNextQuestion a).1 with
  | none => exact h
  | some q =>
    have hq : ¬ q.id ∈ askedIds a := selected_not_asked a q hsel
    have hph : askedIds { a with current_phase := (selectNextQuestion a).2 } = askedIds a := rfl
    rw [askedIds_process, hph]
    refine List.Nodup.append h (List.nodup_singleton _) ?_
    intro x hx hx'
    rw [List.mem_singleton.mp hx'] at hx
    exact hq hx

/-- C7: along the normal non-follow-up flow, in which each processed
response answers the question that get_next_question poses, no question id
ever occurs twice among the recorded responses: the no-duplicate invariant
on the response list is preserved. -/
theorem normal_flow_nodup (a : AssessmentData) (rs : List String)
    (h : (askedIds a).Nodup) : (askedIds (runNormalFlow a rs)).Nodup := by
  induction rs generalizing a with
  | nil => exact h
  | cons r rs ih => exact ih (answerNext a r) (answerNext_nodup a r h)

theorem normal_flow_nodup_witness :
    (askedIds (runNormalFlow demoA ["one two three", "four five six"])).Nodup :=
  normal_flow_nodup demoA ["one two three", "four five six"] List.Pairwise.nil

/-- C9: the follow-up produced by process_response is never empty: responses
of fewer than 3 whitespace-delimited tokens get the generic prompt, all
others the adaptive lookup, whose every path yields a question follow-up or
a generic prompt; consequently the next_question entry of the returned
result bundle is always absent. -/
theorem follow_up_always (m : AssessmentManager) (sid qid resp : String)
    (a : AssessmentData) (h : getAssessment m sid = some a) :
    _should_ask_follow_up qid resp ≠ "" ∧
    get_adaptive_follow_up qid resp ≠ "" ∧
    ((pySplitWs resp).length < 3 →
        _should_ask_follow_up qid resp = "Could you tell me a bit more about that?") ∧
    (¬ (pySplitWs resp).length < 3 →
        _should_ask_follow_up qid resp = get_adaptive_follow_up qid resp) ∧
    (∃ c p, (process_response m sid qid resp).1 =
        ProcessResult.ok (_extract_data_points qid resp) (_should_ask_follow_up qid resp)
          c p none) := by
  refine ⟨should_ask_follow_up_ne_empty qid resp, adaptive_follow_up_ne_empty qid resp,
    ?_, ?_, ?_⟩
  · intro hlen
    unfold _should_ask_follow_up
    rw [if_pos hlen]
  · intro hlen
    unfold _should_ask_follow_up
    rw [if_neg hlen]
  · refine ⟨min 100 ((((a.responses.length : ℚ) + 1) / (total_question_count : ℚ)) * 100),
      _update_priority_score a.priority_score qid resp, ?_⟩
    rw [process_response_active m sid qid resp a h]
    rw [process_response_data_eq]

theorem follow_up_always_witness :
    _should_ask_follow_up "pain_chief_complaint" demoResponse ≠ "" ∧
    ∃ c p, (process_response demoM "s1" "pain_chief_complaint" demoResponse).1 =
        ProcessResult.ok (_extract_data_points "pain_chief_complaint" demoResponse)
          (_should_ask_follow_up "pain_chief_complaint" demoResponse) c p none := by
  have h := follow_up_always demoM "s1" "pain_chief_complaint" demoResponse demoA rfl
  exact ⟨h.1, h.2.2.2.2⟩

/-- C10: a response for a question id absent from the bank is still appended
to the responses, still scored by the keyword rules, and still counted by
the completion percentage, but extracts nothing: the extracted data is
unchanged and the result carries an empty extracted dictionary. -/
theorem unknown_question_id (m : AssessmentManager) (sid qid resp : String)
    (a : AssessmentData) (h : getAssessment m sid = some a)
    (hq : get_question_by_id qid = none) :
    _extract_data_points qid resp = [] ∧
    ∃ a', getAssessment (process_response m sid qid resp).2 sid = some a' ∧
      a'.responses = a.responses ++ [({ question_id := qid, response := resp } : UserResponse)] ∧
      a'.extracted_data = a.extracted_data ∧
      a'.priority_score = a.priority_score + scoreDelta qid resp ∧
      a'.completion_percentage =
        min 100 (((a'.responses.length : ℚ) / (total_question_count : ℚ)) * 100) ∧
      (process_response m sid qid resp).1 =
        ProcessResult.ok [] (_should_ask_follow_up qid resp)
          a'.completion_percentage a'.priority_score none := by
  have hext : _extract_data_points qid resp = [] := by
    unfold _extract_data_points
    rw [hq]
  refine ⟨hext, (process_response_data a qid resp).2,
    process_response_state m sid qid resp a h, ?_, ?_, ?_, ?_, ?_⟩
  · rw [process_response_data_eq]
  · rw [process_response_data_eq]
    simp [hext, dictUpdate]
  · rw [process_response_data_eq]
    exact update_eq_delta a.priority_score qid resp
  · rw [process_response_data_eq]
    simp
  · rw [process_response_active m sid qid resp a h]
    rw [process_response_data_eq, hext]

theorem unknown_question_id_witness :
    get_question_by_id "mystery_question" = none ∧
    _extract_data_points "mystery_question" "it hurts somewhat" = [] := by
  have h := unknown_question_id demoM "s1" "mystery_question" "it hurts somewhat"
    demoA rfl rfl
  exact ⟨rfl, h.1⟩

/-- C8: the summary recommendation list contains the urgent-evaluation entry
exactly when the priority score exceeds 20, the 24-48 hour entry exactly
when the score is above 10 but not above 20, the pain-management entry
exactly when a numeric pain level of at least 7 was extracted, and the
neurological entry exactly when the extracted descriptors include burning or
tingling; the summary returned for the session carries exactly this list. -/
theorem recommendations_thresholds (a : AssessmentData) (m : AssessmentManager)
    (sid : String) (s : AssessmentSummary) :
    ("Recommend urgent medical evaluation" ∈ _generate_recommendations a ↔
        a.priority_score > 20) ∧
    ("Recommend medical evaluation within 24-48 hours" ∈ _generate_recommendations a ↔
        (10 < a.priority_score ∧ a.priority_score ≤ 20)) ∧
    ("Consider pain management strategies" ∈ _generate_recommendations a ↔
        (∃ n, painLevelCurrent a.extracted_data = some n ∧ 7 ≤ n)) ∧
    ("Neurological evaluation may be warranted" ∈ _generate_recommendations a ↔
        ("burning" ∈ painDescriptorsOf a.extracted_data ∨
         "tingling" ∈ painDescriptorsOf a.extracted_data)) ∧
    (getAssessment m sid = some a → get_assessment_summary m sid = some s →
        s.recommendations = _generate_recommendations a) := by
  refine ⟨?_, ?_, ?_, ?_, ?_⟩
  · unfold _generate_recommendations
    rcases hpl : painLevelCurrent a.extracted_data with _ | n <;>
      simp only [hpl] <;>
        split_ifs <;> simp_all [List.mem_append, List.mem_cons]
  · unfold _generate_recommendations
    rcases hpl : painLevelCurrent a.extracted_data with _ | n <;>
      simp only [hpl] <;>
        split_ifs <;> simp_all [List.mem_append, List.mem_cons]
  · unfold _generate_recommendations
    rcases hpl : painLevelCurrent a.extracted_data with _ | n <;>
      simp only [hpl] <;>
        split_ifs <;> simp_all [List.mem_append, List.mem_cons]
  · unfold _generate_recommendations
    rcases hpl : painLevelCurrent a.extracted_data with _ | n <;>
      simp only [hpl] <;>
        split_ifs <;> simp_all [List.mem_append, List.mem_cons]
  · intro hga hs
    unfold get_assessment_summary at hs
    rw [hga] at hs
    injection hs with hs
    subst hs
    rfl

theorem recommendations_thresholds_witness :
    "Recommend urgent medical evaluation" ∈ _generate_recommendations highScoreA :=
  (recommendations_thresholds highScoreA ⟨[]⟩ "s2"
    { session_id := "s2", completion_percentage := 0, priority_score := 25,
      key_findings := [], recommendations := [], red_flags := [],
      raw_responses := [] }).1.mpr (by decide)

end PainAR
